import Mathlib

/-!
Shallow embedding of the `ibc-callbacks-counter` contract
(`src/integration-tests/contracts/ibc/ibc-callbacks-counter/src/contract.rs`).

The contract keeps a keyed table of `Counter` records and reacts to IBC
transfer callbacks.  Storage is modelled as an association list keyed by the
address string; the host's `Map::save` is an upsert and `Map::load` a lookup.
Entry points that can fail return `Except StdError`; the host commits the
returned state only on success and rolls the invocation back on error
(`appliedState` below).  The `i32` `count` field is modelled as `Int`,
matching the data model of the specification (a signed integer).
-/

set_option autoImplicit false

namespace CallbacksCounter

/-- A coin: denomination and amount (`Uint128` modelled as `Nat`; amounts are
never added or compared by the contract, only carried around). -/
structure Coin where
  denom : String
  amount : Nat
  deriving DecidableEq, Repr

/-- `state::Counter`: the per-owner record stored in the `COUNTERS` map. -/
structure Counter where
  count : Int
  total_funds : List Coin
  owner : String
  deriving DecidableEq, Repr

/-- The `COUNTERS` map: association list from address keys to counters. -/
abbrev CounterStore := List (String × Counter)

/-- `COUNTERS.load` / `may_load`: first entry whose key matches. -/
def mapLoad : CounterStore → String → Option Counter
  | [], _ => none
  | (k, v) :: rest, a => if a = k then some v else mapLoad rest a

/-- `COUNTERS.save`: upsert — replace the entry for the key, or append one. -/
def mapSave : CounterStore → String → Counter → CounterStore
  | [], k, v => [(k, v)]
  | (k0, v0) :: rest, k, v =>
      if k0 = k then (k, v) :: rest else (k0, v0) :: mapSave rest k v

/-- `cw2::ContractVersion` record written by `set_contract_version`. -/
structure ContractVersion where
  contract : String
  version : String
  deriving DecidableEq, Repr

/-- The contract's whole persisted state: the `COUNTERS` map plus the cw2
version stamp item. -/
structure State where
  counters : CounterStore
  contract_info : Option ContractVersion
  deriving DecidableEq, Repr

/-- Block timestamp in nanoseconds (`cosmwasm_std::Timestamp`). -/
abbrev Timestamp := Nat

/-- `Timestamp::plus_minutes`: adds `m` minutes, i.e. `m * 60` seconds of
nanoseconds. -/
def Timestamp.plus_minutes (t : Timestamp) (m : Nat) : Timestamp :=
  t + m * 60 * 1000000000

/-- The parts of `Env` the contract reads. -/
structure Env where
  block_time : Timestamp
  contract_address : String
  deriving DecidableEq, Repr

/-- `cosmwasm_std::StdError`, restricted to the variants this contract can
produce: `NotFound` (from `COUNTERS.load`) and `GenericErr`. -/
inductive StdError where
  | notFound (ty : String)
  | genericErr (msg : String)
  deriving DecidableEq, Repr

/-- `IbcSrcCallback`: callback registration attached to an outgoing
transfer. -/
structure IbcSrcCallback where
  address : String
  gas_limit : Option Nat
  deriving DecidableEq, Repr

/-- `IbcDstCallback` (never attached by this contract, but part of the
builder interface). -/
structure IbcDstCallback where
  address : String
  gas_limit : Option Nat
  deriving DecidableEq, Repr

/-- The outgoing IBC transfer message produced by
`TransferMsgBuilder::build()`. -/
structure TransferMsg where
  channel_id : String
  to_address : String
  amount : Coin
  timeout_timestamp : Timestamp
  src_callback : Option IbcSrcCallback
  dst_callback : Option IbcDstCallback
  deriving DecidableEq, Repr

/-- `TransferMsgBuilder` state: fields set so far. -/
structure TransferMsgBuilder where
  channel_id : String
  to_address : String
  amount : Coin
  timeout_timestamp : Timestamp
  src_callback : Option IbcSrcCallback
  dst_callback : Option IbcDstCallback
  deriving DecidableEq, Repr

/-- `TransferMsgBuilder::new(channel_id, to_address, amount, timeout)`. -/
def TransferMsgBuilder.new (channel_id to_address : String) (amount : Coin)
    (timeout : Timestamp) : TransferMsgBuilder :=
  ⟨channel_id, to_address, amount, timeout, none, none⟩

/-- `TransferMsgBuilder::with_src_callback`. -/
def TransferMsgBuilder.with_src_callback (b : TransferMsgBuilder)
    (cb : IbcSrcCallback) : TransferMsgBuilder :=
  { b with src_callback := some cb }

/-- `TransferMsgBuilder::build()`. -/
def TransferMsgBuilder.build (b : TransferMsgBuilder) : TransferMsg :=
  ⟨b.channel_id, b.to_address, b.amount, b.timeout_timestamp,
    b.src_callback, b.dst_callback⟩

/-- `Response`: the outbound messages (only transfer messages are ever
emitted) and the attributes. -/
structure Response where
  messages : List TransferMsg
  attributes : List (String × String)
  deriving DecidableEq, Repr

/-- `IbcBasicResponse`: attributes only (no messages are ever added). -/
structure IbcBasicResponse where
  attributes : List (String × String)
  deriving DecidableEq, Repr

/-- An IBC channel endpoint. -/
structure IbcEndpoint where
  port_id : String
  channel_id : String
  deriving DecidableEq, Repr

/-- An IBC packet: the application data bytes (which carry the original
transfer's sender and receiver), the two endpoints and the sequence. -/
structure IbcPacket where
  data : List Nat
  src : IbcEndpoint
  dest : IbcEndpoint
  sequence : Nat
  deriving DecidableEq, Repr

/-- `IbcAckCallbackMsg`: acknowledgement bytes, original packet, relayer. -/
structure IbcAckCallbackMsg where
  acknowledgement_data : List Nat
  original_packet : IbcPacket
  relayer : String
  deriving DecidableEq, Repr

/-- `IbcTimeoutCallbackMsg`: the timed-out packet and the relayer. -/
structure IbcTimeoutCallbackMsg where
  packet : IbcPacket
  relayer : String
  deriving DecidableEq, Repr

/-- `IbcSourceCallbackMsg`: the two source-side outcome kinds. -/
inductive IbcSourceCallbackMsg where
  | Acknowledgement (m : IbcAckCallbackMsg)
  | Timeout (m : IbcTimeoutCallbackMsg)
  deriving DecidableEq, Repr

/-- `IbcDestinationCallbackMsg`: the received packet and the written
acknowledgement (`msg.ack.data`). -/
structure IbcDestinationCallbackMsg where
  packet : IbcPacket
  ack_data : List Nat
  deriving DecidableEq, Repr

/-- `StdAck::success(b"\x01").to_binary()`: the canonical successful-transfer
acknowledgement, i.e. the JSON bytes of a success ack whose payload is the
single byte `0x01` (base64 `AQ==`).  Written out as its 17 ASCII codes. -/
def stdAckSuccessBinary : List Nat :=
  [123, 34, 114, 101, 115, 117, 108, 116, 34, 58, 34, 65, 81, 61, 61, 34, 125]

/-- `InstantiateMsg { count: i32 }`. -/
structure InstantiateMsg where
  count : Int
  deriving DecidableEq, Repr

/-- `ExecuteMsg`. -/
inductive ExecuteMsg where
  | TransferFunds (channel : String) (amount : Coin) (recipient : String)
  deriving DecidableEq, Repr

/-- `QueryMsg`. -/
inductive QueryMsg where
  | GetCount (addr : String)
  | GetTotalFunds (addr : String)
  deriving DecidableEq, Repr

/-- `GetCountResponse`. -/
structure GetCountResponse where
  count : Int
  deriving DecidableEq, Repr

/-- `GetTotalFundsResponse`. -/
structure GetTotalFundsResponse where
  total_funds : List Coin
  deriving DecidableEq, Repr

/-- The (deserialized) value a query returns. -/
inductive QueryAnswer where
  | countAnswer (r : GetCountResponse)
  | fundsAnswer (r : GetTotalFundsResponse)
  deriving DecidableEq, Repr

/-- `CONTRACT_NAME`. -/
def CONTRACT_NAME : String := "callbacks_counter"

/-- `Coin`'s `Display`: `"{amount}{denom}"`. -/
def Coin.to_string (c : Coin) : String := toString c.amount ++ c.denom

/-- `instantiate`: stamps the cw2 version (the version string is the
build-time `CARGO_PKG_VERSION`, passed in as a parameter here) and saves a
fresh counter for the instantiating sender. -/
def instantiate (s : State) (contract_version : String) (info_sender : String)
    (msg : InstantiateMsg) : State × Response :=
  let s1 : State :=
    { s with contract_info := some ⟨CONTRACT_NAME, contract_version⟩ }
  let initial_counter : Counter := ⟨msg.count, [], info_sender⟩
  let s2 : State :=
    { s1 with counters := mapSave s1.counters info_sender initial_counter }
  (s2, ⟨[], [("method", "instantiate"), ("owner", info_sender),
    ("count", toString msg.count)]⟩)

/-- `transfer_funds`: builds the outgoing transfer with a deadline five
minutes past the block time and a source callback at the contract's own
address, and emits it.  The Rust function always returns `Ok`, so it is
modelled as total. -/
def transfer_funds (env : Env) (channel : String) (amount : Coin)
    (recipient : String) : Response :=
  let msg :=
    (((TransferMsgBuilder.new channel recipient amount
        (Timestamp.plus_minutes env.block_time 5)).with_src_callback
        ⟨env.contract_address, none⟩).build)
  ⟨[msg], [("action", "transfer_funds"), ("channel", channel),
    ("amount", amount.to_string), ("recipient", recipient)]⟩

/-- `execute`: dispatch.  The Rust entry point takes storage (`_deps`) but
never touches it, so the state passes through unchanged. -/
def execute (s : State) (env : Env) (msg : ExecuteMsg) : State × Response :=
  match msg with
  | .TransferFunds channel amount recipient =>
      (s, transfer_funds env channel amount recipient)

namespace utils

/-- `utils::update_counter`: `COUNTERS.update` at key `sender` — read the
current entry, apply the two transform closures, write back a counter whose
`owner` is the key.  The Rust closure always returns `Ok`, so the operation
is modelled as total (its only failure source is the storage backend). -/
def update_counter (store : CounterStore) (sender : String)
    (uc : Option Counter → Int) (uf : Option Counter → List Coin) :
    CounterStore :=
  match mapLoad store sender with
  | none => mapSave store sender ⟨uc none, uf none, sender⟩
  | some counter =>
      mapSave store sender ⟨uc (some counter), uf (some counter), sender⟩

end utils

/-- `receive_ack`: count becomes `c + 1` (or `1` from nothing),
`total_funds` becomes empty. -/
def receive_ack (s : State) (contract : String) (_success : Bool) :
    State × Response :=
  let counters := utils.update_counter s.counters contract
    (fun counter => match counter with
      | none => 1
      | some c => c.count + 1)
    (fun _ => [])
  ({ s with counters := counters }, ⟨[], [("action", "ack")]⟩)

/-- `ibc_timeout`: count becomes `c + 10` (or `10` from nothing),
`total_funds` becomes empty. -/
def ibc_timeout (s : State) (contract : String) : State × Response :=
  let counters := utils.update_counter s.counters contract
    (fun counter => match counter with
      | none => 10
      | some c => c.count + 10)
    (fun _ => [])
  ({ s with counters := counters }, ⟨[], [("action", "timeout")]⟩)

/-- `ibc_source_callback` entry point: both outcome kinds update the counter
keyed by the contract's own address; the inner `Response` is discarded. -/
def ibc_source_callback (s : State) (env : Env) (msg : IbcSourceCallbackMsg) :
    Except StdError (State × IbcBasicResponse) :=
  match msg with
  | .Acknowledgement _ =>
      Except.ok ((receive_ack s env.contract_address true).1,
        ⟨[("action", "ibc_source_callback")]⟩)
  | .Timeout _ =>
      Except.ok ((ibc_timeout s env.contract_address).1,
        ⟨[("action", "ibc_source_callback")]⟩)

/-- `ibc_destination_callback` entry point: `ensure_eq!` returns a
`GenericErr` early when the destination port is not `"transfer"` or the
acknowledgement is not the canonical success bytes; otherwise it behaves
like a source acknowledgement. -/
def ibc_destination_callback (s : State) (env : Env)
    (msg : IbcDestinationCallbackMsg) :
    Except StdError (State × IbcBasicResponse) :=
  if msg.packet.dest.port_id = "transfer" then
    if msg.ack_data = stdAckSuccessBinary then
      Except.ok ((receive_ack s env.contract_address true).1,
        ⟨[("action", "ibc_destination_callback")]⟩)
    else
      Except.error (StdError.genericErr "only want to handle successful transfers")
  else
    Except.error (StdError.genericErr "only want to handle transfer packets")

/-- The state the host ends up with after an entry point runs: the returned
state on success, the unchanged pre-state on error (the invocation is rolled
back atomically). -/
def appliedState (s : State) (r : Except StdError (State × IbcBasicResponse)) :
    State :=
  match r with
  | .ok p => p.1
  | .error _ => s

/-- State after delivering a source callback. -/
def sourceState (s : State) (env : Env) (msg : IbcSourceCallbackMsg) : State :=
  appliedState s (ibc_source_callback s env msg)

/-- State after delivering a destination callback. -/
def destState (s : State) (env : Env) (msg : IbcDestinationCallbackMsg) :
    State :=
  appliedState s (ibc_destination_callback s env msg)

/-- `query::count`: `COUNTERS.load` fails with `NotFound` when absent. -/
def query_count (s : State) (addr : String) :
    Except StdError GetCountResponse :=
  match mapLoad s.counters addr with
  | none => Except.error (StdError.notFound "Counter")
  | some state => Except.ok ⟨state.count⟩

/-- `query::total_funds`. -/
def query_total_funds (s : State) (addr : String) :
    Except StdError GetTotalFundsResponse :=
  match mapLoad s.counters addr with
  | none => Except.error (StdError.notFound "Counter")
  | some state => Except.ok ⟨state.total_funds⟩

/-- `query` entry point: read-only dispatch (it takes `Deps`, not
`DepsMut`, so it cannot write state; accordingly it returns no state). -/
def query (s : State) (msg : QueryMsg) : Except StdError QueryAnswer :=
  match msg with
  | .GetCount addr => (query_count s addr).map QueryAnswer.countAnswer
  | .GetTotalFunds addr => (query_total_funds s addr).map QueryAnswer.fundsAnswer

/-- The `count` field stored at a key, when a counter is there. -/
def countAt (s : State) (a : String) : Option Int :=
  (mapLoad s.counters a).map Counter.count

/-- The `total_funds` field stored at a key, when a counter is there. -/
def fundsAt (s : State) (a : String) : Option (List Coin) :=
  (mapLoad s.counters a).map Counter.total_funds

/-- Invariant: every entry of the `COUNTERS` table has its `owner` field
equal to the key it is stored under. -/
def ownerInv (store : CounterStore) : Prop :=
  ∀ p ∈ store, (p.2).owner = p.1

/-! ## Basic lemmas about the store -/

theorem mapLoad_mapSave_self (s : CounterStore) (k : String) (v : Counter) :
    mapLoad (mapSave s k v) k = some v := by
  induction s with
  | nil => simp [mapSave, mapLoad]
  | cons hd tl ih =>
      rcases hd with ⟨k0, v0⟩
      by_cases h : k0 = k
      · simp [mapSave, mapLoad, h]
      · simp only [mapSave, if_neg h, mapLoad]
        rw [if_neg (fun hkk => h hkk.symm)]
        exact ih

theorem mapLoad_mapSave_ne (s : CounterStore) (k a : String) (v : Counter)
    (h : a ≠ k) : mapLoad (mapSave s k v) a = mapLoad s a := by
  induction s with
  | nil => simp [mapSave, mapLoad, h]
  | cons hd tl ih =>
      rcases hd with ⟨k0, v0⟩
      by_cases h0 : k0 = k
      · subst h0
        simp [mapSave, mapLoad, h]
      · simp only [mapSave, if_neg h0, mapLoad]
        by_cases ha : a = k0
        · simp [ha]
        · simp [ha, ih]

theorem update_counter_eq (store : CounterStore) (sender : String)
    (uc : Option Counter → Int) (uf : Option Counter → List Coin) :
    utils.update_counter store sender uc uf =
      mapSave store sender
        ⟨uc (mapLoad store sender), uf (mapLoad store sender), sender⟩ := by
  cases h : mapLoad store sender <;> simp [utils.update_counter, h]

theorem mapSave_ownerInv (store : CounterStore) (k : String) (v : Counter)
    (hv : v.owner = k) (hinv : ownerInv store) : ownerInv (mapSave store k v) := by
  induction store with
  | nil =>
      intro p hp
      simp [mapSave] at hp
      simp [hp, hv]
  | cons hd tl ih =>
      rcases hd with ⟨k0, v0⟩
      by_cases h0 : k0 = k
      · intro p hp
        simp only [mapSave, if_pos h0] at hp
        rcases List.mem_cons.mp hp with h | h
        · simp [h, hv]
        · exact hinv p (List.mem_cons_of_mem _ h)
      · intro p hp
        simp only [mapSave, if_neg h0] at hp
        rcases List.mem_cons.mp hp with h | h
        · exact hinv p (by simp [h])
        · exact ih (fun q hq => hinv q (List.mem_cons_of_mem _ hq)) p h

theorem mapLoad_update_self (store : CounterStore) (k : String)
    (uc : Option Counter → Int) (uf : Option Counter → List Coin) :
    mapLoad (utils.update_counter store k uc uf) k =
      some ⟨uc (mapLoad store k), uf (mapLoad store k), k⟩ := by
  rw [update_counter_eq]
  exact mapLoad_mapSave_self _ _ _

theorem mapLoad_update_ne (store : CounterStore) (k a : String)
    (uc : Option Counter → Int) (uf : Option Counter → List Coin)
    (h : a ≠ k) :
    mapLoad (utils.update_counter store k uc uf) a = mapLoad store a := by
  rw [update_counter_eq]
  exact mapLoad_mapSave_ne _ _ _ _ h

/-! ## Claim theorems -/

/-- C1: delivering an acknowledgement callback — source-side, or a
destination-side one passing both filters — sets the contract-address
counter to `c + 1` when a counter with count `c` exists, and creates one
with count `1` when none exists. -/
theorem ack_callback_count (s : State) (env : Env) (m : IbcAckCallbackMsg)
    (md : IbcDestinationCallbackMsg)
    (hport : md.packet.dest.port_id = "transfer")
    (hack : md.ack_data = stdAckSuccessBinary) :
    (∀ c, mapLoad s.counters env.contract_address = some c →
      countAt (sourceState s env (.Acknowledgement m)) env.contract_address
          = some (c.count + 1) ∧
      countAt (destState s env md) env.contract_address = some (c.count + 1)) ∧
    (mapLoad s.counters env.contract_address = none →
      countAt (sourceState s env (.Acknowledgement m)) env.contract_address
          = some 1 ∧
      countAt (destState s env md) env.contract_address = some 1) := by
  have hsrc : (sourceState s env (.Acknowledgement m)).counters =
      utils.update_counter s.counters env.contract_address
        (fun counter => match counter with
          | none => 1
          | some c => c.count + 1)
        (fun _ => []) := rfl
  have hdst : (destState s env md).counters =
      utils.update_counter s.counters env.contract_address
        (fun counter => match counter with
          | none => 1
          | some c => c.count + 1)
        (fun _ => []) := by
    simp [destState, ibc_destination_callback, hport, hack, appliedState,
      receive_ack]
  constructor
  · intro c hc
    constructor
    · simp [countAt, hsrc, mapLoad_update_self, hc]
    · simp [countAt, hdst, mapLoad_update_self, hc]
  · intro hc
    constructor
    · simp [countAt, hsrc, mapLoad_update_self, hc]
    · simp [countAt, hdst, mapLoad_update_self, hc]

theorem ack_callback_count_witness :
    countAt (sourceState ⟨[("c", ⟨5, [], "c"⟩)], none⟩ ⟨0, "c"⟩
        (.Acknowledgement ⟨[1], ⟨[], ⟨"transfer", "channel-0"⟩,
          ⟨"transfer", "channel-1"⟩, 1⟩, "r"⟩)) "c" = some 6 ∧
    countAt (destState ⟨[("c", ⟨5, [], "c"⟩)], none⟩ ⟨0, "c"⟩
        ⟨⟨[], ⟨"transfer", "channel-0"⟩, ⟨"transfer", "channel-1"⟩, 1⟩,
          stdAckSuccessBinary⟩) "c" = some 6 := by
  have h := ack_callback_count ⟨[("c", ⟨5, [], "c"⟩)], none⟩ ⟨0, "c"⟩
    ⟨[1], ⟨[], ⟨"transfer", "channel-0"⟩, ⟨"transfer", "channel-1"⟩, 1⟩, "r"⟩
    ⟨⟨[], ⟨"transfer", "channel-0"⟩, ⟨"transfer", "channel-1"⟩, 1⟩,
      stdAckSuccessBinary⟩ rfl rfl
  have h2 := h.1 ⟨5, [], "c"⟩ (by decide)
  exact ⟨by simpa using h2.1, by simpa using h2.2⟩

/-- C2: delivering a timeout callback sets the contract-address counter to
`c + 10` when a counter with count `c` exists, and creates one with count
`10` when none exists. -/
theorem timeout_callback_count (s : State) (env : Env)
    (m : IbcTimeoutCallbackMsg) :
    (∀ c, mapLoad s.counters env.contract_address = some c →
      countAt (sourceState s env (.Timeout m)) env.contract_address
          = some (c.count + 10)) ∧
    (mapLoad s.counters env.contract_address = none →
      countAt (sourceState s env (.Timeout m)) env.contract_address
          = some 10) := by
  have hsrc : (sourceState s env (.Timeout m)).counters =
      utils.update_counter s.counters env.contract_address
        (fun counter => match counter with
          | none => 10
          | some c => c.count + 10)
        (fun _ => []) := rfl
  constructor
  · intro c hc
    simp [countAt, hsrc, mapLoad_update_self, hc]
  · intro hc
    simp [countAt, hsrc, mapLoad_update_self, hc]

theorem timeout_callback_count_witness :
    countAt (sourceState ⟨[("c", ⟨5, [], "c"⟩)], none⟩ ⟨0, "c"⟩
        (.Timeout ⟨⟨[], ⟨"transfer", "channel-0"⟩, ⟨"transfer", "channel-1"⟩,
          1⟩, "r"⟩)) "c" = some 15 ∧
    countAt (sourceState ⟨[], none⟩ ⟨0, "c"⟩
        (.Timeout ⟨⟨[], ⟨"transfer", "channel-0"⟩, ⟨"transfer", "channel-1"⟩,
          1⟩, "r"⟩)) "c" = some 10 := by
  have h1 := (timeout_callback_count ⟨[("c", ⟨5, [], "c"⟩)], none⟩ ⟨0, "c"⟩
    ⟨⟨[], ⟨"transfer", "channel-0"⟩, ⟨"transfer", "channel-1"⟩, 1⟩, "r"⟩).1
    ⟨5, [], "c"⟩ (by decide)
  have h2 := (timeout_callback_count ⟨[], none⟩ ⟨0, "c"⟩
    ⟨⟨[], ⟨"transfer", "channel-0"⟩, ⟨"transfer", "channel-1"⟩, 1⟩, "r"⟩).2
    (by decide)
  exact ⟨by simpa using h1, h2⟩

/-- C3 counterexample: a destination callback whose destination port is not
`"transfer"` makes `ensure_eq!` return a `GenericErr` — the handler errors
instead of returning the success (no-op) response the claim states. -/
theorem dest_callback_bad_port_errors :
    ibc_destination_callback ⟨[], none⟩ ⟨0, "c"⟩
        ⟨⟨[], ⟨"transfer", "channel-0"⟩, ⟨"other", "channel-1"⟩, 1⟩,
          stdAckSuccessBinary⟩ =
      Except.error (StdError.genericErr "only want to handle transfer packets") :=
  rfl

/-- C3 (amended): a destination callback failing either precondition makes
no state change — the handler returns early with a `GenericErr` and the host
rolls the invocation back — but it returns that error, not a success
response. -/
theorem dest_callback_filter (s : State) (env : Env)
    (m : IbcDestinationCallbackMsg)
    (h : m.packet.dest.port_id ≠ "transfer" ∨ m.ack_data ≠ stdAckSuccessBinary) :
    destState s env m = s ∧
    ∃ e, ibc_destination_callback s env m = Except.error e := by
  by_cases hp : m.packet.dest.port_id = "transfer"
  · have ha : m.ack_data ≠ stdAckSuccessBinary := by
      rcases h with h | h
      · exact absurd hp h
      · exact h
    constructor
    · simp [destState, ibc_destination_callback, hp, ha, appliedState]
    · exact ⟨StdError.genericErr "only want to handle successful transfers",
        by simp [ibc_destination_callback, hp, ha]⟩
  · constructor
    · simp [destState, ibc_destination_callback, hp, appliedState]
    · exact ⟨StdError.genericErr "only want to handle transfer packets",
        by simp [ibc_destination_callback, hp]⟩

theorem dest_callback_filter_witness :
    destState ⟨[("c", ⟨5, [], "c"⟩)], none⟩ ⟨0, "c"⟩
        ⟨⟨[], ⟨"transfer", "channel-0"⟩, ⟨"transfer", "channel-1"⟩, 1⟩, [1]⟩ =
      ⟨[("c", ⟨5, [], "c"⟩)], none⟩ ∧
    ∃ e, ibc_destination_callback ⟨[("c", ⟨5, [], "c"⟩)], none⟩ ⟨0, "c"⟩
        ⟨⟨[], ⟨"transfer", "channel-0"⟩, ⟨"transfer", "channel-1"⟩, 1⟩, [1]⟩ =
      Except.error e :=
  dest_callback_filter ⟨[("c", ⟨5, [], "c"⟩)], none⟩ ⟨0, "c"⟩
    ⟨⟨[], ⟨"transfer", "channel-0"⟩, ⟨"transfer", "channel-1"⟩, 1⟩, [1]⟩
    (Or.inr (by decide))

/-- C4: a destination callback passing both filters produces exactly the
state a source-side acknowledgement callback produces on the same starting
state. -/
theorem dest_matches_source_ack (s : State) (env : Env)
    (md : IbcDestinationCallbackMsg) (m : IbcAckCallbackMsg)
    (hport : md.packet.dest.port_id = "transfer")
    (hack : md.ack_data = stdAckSuccessBinary) :
    destState s env md = sourceState s env (.Acknowledgement m) := by
  simp [destState, sourceState, ibc_destination_callback, ibc_source_callback,
    hport, hack, appliedState]

theorem dest_matches_source_ack_witness :
    destState ⟨[("c", ⟨7, [], "c"⟩)], none⟩ ⟨0, "c"⟩
        ⟨⟨[2], ⟨"transfer", "channel-0"⟩, ⟨"transfer", "channel-1"⟩, 3⟩,
          stdAckSuccessBinary⟩ =
      sourceState ⟨[("c", ⟨7, [], "c"⟩)], none⟩ ⟨0, "c"⟩
        (.Acknowledgement ⟨[1], ⟨[], ⟨"transfer", "channel-0"⟩,
          ⟨"transfer", "channel-1"⟩, 1⟩, "r"⟩) :=
  dest_matches_source_ack ⟨[("c", ⟨7, [], "c"⟩)], none⟩ ⟨0, "c"⟩
    ⟨⟨[2], ⟨"transfer", "channel-0"⟩, ⟨"transfer", "channel-1"⟩, 3⟩,
      stdAckSuccessBinary⟩
    ⟨[1], ⟨[], ⟨"transfer", "channel-0"⟩, ⟨"transfer", "channel-1"⟩, 1⟩, "r"⟩
    rfl rfl

/-- C5: every callback-driven update keys the store by the contract's own
address: slots at every other key are untouched, and the resulting state
does not depend on the callback message's packet payload (in particular not
on the transfer's sender or recipient carried in the packet data) — only
the outcome kind and, for destination callbacks, the two filter fields
matter. -/
theorem callback_key_is_contract_address (s : State) (env : Env)
    (m1 m2 : IbcAckCallbackMsg) (t1 t2 : IbcTimeoutCallbackMsg)
    (d1 d2 : IbcDestinationCallbackMsg) (k : String)
    (hk : k ≠ env.contract_address) :
    mapLoad (sourceState s env (.Acknowledgement m1)).counters k
        = mapLoad s.counters k ∧
    mapLoad (sourceState s env (.Timeout t1)).counters k
        = mapLoad s.counters k ∧
    mapLoad (destState s env d1).counters k = mapLoad s.counters k ∧
    sourceState s env (.Acknowledgement m1)
        = sourceState s env (.Acknowledgement m2) ∧
    sourceState s env (.Timeout t1) = sourceState s env (.Timeout t2) ∧
    (d1.packet.dest.port_id = d2.packet.dest.port_id →
      d1.ack_data = d2.ack_data → destState s env d1 = destState s env d2) := by
  refine ⟨?_, ?_, ?_, rfl, rfl, ?_⟩
  · show mapLoad (utils.update_counter s.counters env.contract_address
        (fun counter => match counter with
          | none => 1
          | some c => c.count + 1)
        (fun _ => [])) k = mapLoad s.counters k
    exact mapLoad_update_ne _ _ _ _ _ hk
  · show mapLoad (utils.update_counter s.counters env.contract_address
        (fun counter => match counter with
          | none => 10
          | some c => c.count + 10)
        (fun _ => [])) k = mapLoad s.counters k
    exact mapLoad_update_ne _ _ _ _ _ hk
  · by_cases hp : d1.packet.dest.port_id = "transfer"
    · by_cases ha : d1.ack_data = stdAckSuccessBinary
      · have h : (destState s env d1).counters =
            utils.update_counter s.counters env.contract_address
              (fun counter => match counter with
                | none => 1
                | some c => c.count + 1)
              (fun _ => []) := by
          simp [destState, ibc_destination_callback, hp, ha, appliedState,
            receive_ack]
        rw [h]
        exact mapLoad_update_ne _ _ _ _ _ hk
      · simp [destState, ibc_destination_callback, hp, ha, appliedState]
    · simp [destState, ibc_destination_callback, hp, appliedState]
  · intro hports hacks
    by_cases hp : d1.packet.dest.port_id = "transfer"
    · have hp2 : d2.packet.dest.port_id = "transfer" := hports ▸ hp
      by_cases ha : d1.ack_data = stdAckSuccessBinary
      · have ha2 : d2.ack_data = stdAckSuccessBinary := hacks ▸ ha
        simp [destState, ibc_destination_callback, hp, hp2, ha, ha2,
          appliedState]
      · have ha2 : ¬ d2.ack_data = stdAckSuccessBinary :=
          fun hh => ha (hacks.trans hh)
        simp [destState, ibc_destination_callback, hp, hp2, ha, ha2,
          appliedState]
    · have hp2 : ¬ d2.packet.dest.port_id = "transfer" :=
        fun hh => hp (hports.trans hh)
      simp [destState, ibc_destination_callback, hp, hp2, appliedState]

theorem callback_key_is_contract_address_witness :
    mapLoad (sourceState ⟨[("x", ⟨3, [], "x"⟩)], none⟩ ⟨0, "c"⟩
        (.Acknowledgement ⟨[1], ⟨[4], ⟨"transfer", "channel-0"⟩,
          ⟨"transfer", "channel-1"⟩, 1⟩, "r"⟩)).counters "x"
        = mapLoad [("x", ⟨3, [], "x"⟩)] "x" ∧
    mapLoad (sourceState ⟨[("x", ⟨3, [], "x"⟩)], none⟩ ⟨0, "c"⟩
        (.Timeout ⟨⟨[4], ⟨"transfer", "channel-0"⟩,
          ⟨"transfer", "channel-1"⟩, 1⟩, "r"⟩)).counters "x"
        = mapLoad [("x", ⟨3, [], "x"⟩)] "x" ∧
    mapLoad (destState ⟨[("x", ⟨3, [], "x"⟩)], none⟩ ⟨0, "c"⟩
        ⟨⟨[4], ⟨"transfer", "channel-0"⟩, ⟨"transfer", "channel-1"⟩, 1⟩,
          stdAckSuccessBinary⟩).counters "x"
        = mapLoad [("x", ⟨3, [], "x"⟩)] "x" ∧
    sourceState ⟨[("x", ⟨3, [], "x"⟩)], none⟩ ⟨0, "c"⟩
        (.Acknowledgement ⟨[1], ⟨[4], ⟨"transfer", "channel-0"⟩,
          ⟨"transfer", "channel-1"⟩, 1⟩, "r"⟩)
        = sourceState ⟨[("x", ⟨3, [], "x"⟩)], none⟩ ⟨0, "c"⟩
        (.Acknowledgement ⟨[9], ⟨[8], ⟨"transfer", "channel-7"⟩,
          ⟨"transfer", "channel-6"⟩, 2⟩, "q"⟩) ∧
    sourceState ⟨[("x", ⟨3, [], "x"⟩)], none⟩ ⟨0, "c"⟩
        (.Timeout ⟨⟨[4], ⟨"transfer", "channel-0"⟩,
          ⟨"transfer", "channel-1"⟩, 1⟩, "r"⟩)
        = sourceState ⟨[("x", ⟨3, [], "x"⟩)], none⟩ ⟨0, "c"⟩
        (.Timeout ⟨⟨[8], ⟨"transfer", "channel-7"⟩,
          ⟨"transfer", "channel-6"⟩, 2⟩, "q"⟩) ∧
    (IbcEndpoint.port_id ⟨"transfer", "channel-1"⟩
        = IbcEndpoint.port_id ⟨"transfer", "channel-6"⟩ →
      stdAckSuccessBinary = stdAckSuccessBinary →
      destState ⟨[("x", ⟨3, [], "x"⟩)], none⟩ ⟨0, "c"⟩
        ⟨⟨[4], ⟨"transfer", "channel-0"⟩, ⟨"transfer", "channel-1"⟩, 1⟩,
          stdAckSuccessBinary⟩
        = destState ⟨[("x", ⟨3, [], "x"⟩)], none⟩ ⟨0, "c"⟩
        ⟨⟨[8], ⟨"transfer", "channel-7"⟩, ⟨"transfer", "channel-6"⟩, 2⟩,
          stdAckSuccessBinary⟩) :=
  callback_key_is_contract_address ⟨[("x", ⟨3, [], "x"⟩)], none⟩ ⟨0, "c"⟩
    ⟨[1], ⟨[4], ⟨"transfer", "channel-0"⟩, ⟨"transfer", "channel-1"⟩, 1⟩, "r"⟩
    ⟨[9], ⟨[8], ⟨"transfer", "channel-7"⟩, ⟨"transfer", "channel-6"⟩, 2⟩, "q"⟩
    ⟨⟨[4], ⟨"transfer", "channel-0"⟩, ⟨"transfer", "channel-1"⟩, 1⟩, "r"⟩
    ⟨⟨[8], ⟨"transfer", "channel-7"⟩, ⟨"transfer", "channel-6"⟩, 2⟩, "q"⟩
    ⟨⟨[4], ⟨"transfer", "channel-0"⟩, ⟨"transfer", "channel-1"⟩, 1⟩,
      stdAckSuccessBinary⟩
    ⟨⟨[8], ⟨"transfer", "channel-7"⟩, ⟨"transfer", "channel-6"⟩, 2⟩,
      stdAckSuccessBinary⟩
    "x" (by decide)

/-- C6: after any callback-driven transition — source acknowledgement,
source timeout, or a destination callback passing both filters — the
updated counter's `total_funds` is the empty list, whatever it was
before. -/
theorem callback_total_funds_empty (s : State) (env : Env)
    (m : IbcSourceCallbackMsg) (d : IbcDestinationCallbackMsg)
    (hport : d.packet.dest.port_id = "transfer")
    (hack : d.ack_data = stdAckSuccessBinary) :
    fundsAt (sourceState s env m) env.contract_address = some [] ∧
    fundsAt (destState s env d) env.contract_address = some [] := by
  constructor
  · cases m with
    | Acknowledgement m0 =>
        have h : (sourceState s env (.Acknowledgement m0)).counters =
            utils.update_counter s.counters env.contract_address
              (fun counter => match counter with
                | none => 1
                | some c => c.count + 1)
              (fun _ => []) := rfl
        simp [fundsAt, h, mapLoad_update_self]
    | Timeout m0 =>
        have h : (sourceState s env (.Timeout m0)).counters =
            utils.update_counter s.counters env.contract_address
              (fun counter => match counter with
                | none => 10
                | some c => c.count + 10)
              (fun _ => []) := rfl
        simp [fundsAt, h, mapLoad_update_self]
  · have h : (destState s env d).counters =
        utils.update_counter s.counters env.contract_address
          (fun counter => match counter with
            | none => 1
            | some c => c.count + 1)
          (fun _ => []) := by
      simp [destState, ibc_destination_callback, hport, hack, appliedState,
        receive_ack]
    simp [fundsAt, h, mapLoad_update_self]

theorem callback_total_funds_empty_witness :
    fundsAt (sourceState ⟨[("c", ⟨5, [⟨"uatom", 3⟩], "c"⟩)], none⟩ ⟨0, "c"⟩
        (.Timeout ⟨⟨[], ⟨"transfer", "channel-0"⟩,
          ⟨"transfer", "channel-1"⟩, 1⟩, "r"⟩)) "c" = some [] ∧
    fundsAt (destState ⟨[("c", ⟨5, [⟨"uatom", 3⟩], "c"⟩)], none⟩ ⟨0, "c"⟩
        ⟨⟨[], ⟨"transfer", "channel-0"⟩, ⟨"transfer", "channel-1"⟩, 1⟩,
          stdAckSuccessBinary⟩) "c" = some [] :=
  callback_total_funds_empty ⟨[("c", ⟨5, [⟨"uatom", 3⟩], "c"⟩)], none⟩
    ⟨0, "c"⟩
    (.Timeout ⟨⟨[], ⟨"transfer", "channel-0"⟩,
      ⟨"transfer", "channel-1"⟩, 1⟩, "r"⟩)
    ⟨⟨[], ⟨"transfer", "channel-0"⟩, ⟨"transfer", "channel-1"⟩, 1⟩,
      stdAckSuccessBinary⟩
    rfl rfl

/-- C7: `GetCount` and `GetTotalFunds` return the stored `count`
(respectively `total_funds`) when a counter exists for the queried address
and fail with `NotFound` when none does.  The query entry point takes
read-only storage and returns no state, so it cannot modify anything. -/
theorem query_spec (s : State) (a : String) :
    (∀ c, mapLoad s.counters a = some c →
      query s (.GetCount a) = Except.ok (.countAnswer ⟨c.count⟩) ∧
      query s (.GetTotalFunds a) = Except.ok (.fundsAnswer ⟨c.total_funds⟩)) ∧
    (mapLoad s.counters a = none →
      query s (.GetCount a) = Except.error (StdError.notFound "Counter") ∧
      query s (.GetTotalFunds a)
          = Except.error (StdError.notFound "Counter")) := by
  constructor
  · intro c hc
    constructor <;>
      simp [query, query_count, query_total_funds, hc, Except.map]
  · intro hc
    constructor <;>
      simp [query, query_count, query_total_funds, hc, Except.map]

theorem query_spec_witness :
    (query ⟨[("a", ⟨5, [⟨"uatom", 3⟩], "a"⟩)], none⟩ (.GetCount "a")
        = Except.ok (.countAnswer ⟨5⟩) ∧
      query ⟨[("a", ⟨5, [⟨"uatom", 3⟩], "a"⟩)], none⟩ (.GetTotalFunds "a")
        = Except.ok (.fundsAnswer ⟨[⟨"uatom", 3⟩]⟩)) ∧
    (query ⟨[("a", ⟨5, [⟨"uatom", 3⟩], "a"⟩)], none⟩ (.GetCount "b")
        = Except.error (StdError.notFound "Counter") ∧
      query ⟨[("a", ⟨5, [⟨"uatom", 3⟩], "a"⟩)], none⟩ (.GetTotalFunds "b")
        = Except.error (StdError.notFound "Counter")) :=
  ⟨(query_spec ⟨[("a", ⟨5, [⟨"uatom", 3⟩], "a"⟩)], none⟩ "a").1
      ⟨5, [⟨"uatom", 3⟩], "a"⟩ (by decide),
    (query_spec ⟨[("a", ⟨5, [⟨"uatom", 3⟩], "a"⟩)], none⟩ "b").2 (by decide)⟩

/-- C8: `TransferFunds` always succeeds, leaves the state — hence every
counter — unchanged, and emits exactly one transfer message whose timeout
is the block time plus five minutes (300 · 10⁹ nanoseconds) and whose
source callback points at the contract's own address with no gas limit. -/
theorem transfer_funds_spec (s : State) (env : Env) (channel : String)
    (amount : Coin) (recipient : String) :
    execute s env (.TransferFunds channel amount recipient) =
      (s, transfer_funds env channel amount recipient) ∧
    (transfer_funds env channel amount recipient).messages =
      [⟨channel, recipient, amount, env.block_time + 300000000000,
        some ⟨env.contract_address, none⟩, none⟩] := by
  refine ⟨rfl, ?_⟩
  simp only [transfer_funds, TransferMsgBuilder.new,
    TransferMsgBuilder.with_src_callback, TransferMsgBuilder.build,
    Timestamp.plus_minutes]

/-- C9: instantiating with count `n` saves the counter
`⟨n, [], sender⟩` under the instantiating sender's key, and a subsequent
`GetCount` for that sender returns `n`. -/
theorem instantiate_spec (s : State) (ver sender : String) (n : Int) :
    mapLoad (instantiate s ver sender ⟨n⟩).1.counters sender
        = some ⟨n, [], sender⟩ ∧
    query (instantiate s ver sender ⟨n⟩).1 (.GetCount sender)
        = Except.ok (.countAnswer ⟨n⟩) := by
  have h : (instantiate s ver sender ⟨n⟩).1.counters =
      mapSave s.counters sender ⟨n, [], sender⟩ := rfl
  have h2 : mapLoad (instantiate s ver sender ⟨n⟩).1.counters sender
      = some ⟨n, [], sender⟩ := by
    rw [h]
    exact mapLoad_mapSave_self _ _ _
  exact ⟨h2, by simp [query, query_count, h2, Except.map]⟩

/-- C10: the owner-equals-storage-key invariant holds after instantiation
and is preserved by every callback-driven update — each write stores a
counter whose `owner` field is rewritten to the update key. -/
theorem owner_invariant (s : State) (env : Env) (ver sender : String)
    (n : Int) (msrc : IbcSourceCallbackMsg) (md : IbcDestinationCallbackMsg)
    (hinv : ownerInv s.counters) :
    ownerInv (instantiate s ver sender ⟨n⟩).1.counters ∧
    ownerInv (sourceState s env msrc).counters ∧
    ownerInv (destState s env md).counters := by
  refine ⟨?_, ?_, ?_⟩
  · exact mapSave_ownerInv _ _ _ rfl hinv
  · cases msrc with
    | Acknowledgement m =>
        have h : (sourceState s env (.Acknowledgement m)).counters =
            utils.update_counter s.counters env.contract_address
              (fun counter => match counter with
                | none => 1
                | some c => c.count + 1)
              (fun _ => []) := rfl
        rw [h, update_counter_eq]
        exact mapSave_ownerInv _ _ _ rfl hinv
    | Timeout m =>
        have h : (sourceState s env (.Timeout m)).counters =
            utils.update_counter s.counters env.contract_address
              (fun counter => match counter with
                | none => 10
                | some c => c.count + 10)
              (fun _ => []) := rfl
        rw [h, update_counter_eq]
        exact mapSave_ownerInv _ _ _ rfl hinv
  · by_cases hp : md.packet.dest.port_id = "transfer"
    · by_cases ha : md.ack_data = stdAckSuccessBinary
      · have h : (destState s env md).counters =
            utils.update_counter s.counters env.contract_address
              (fun counter => match counter with
                | none => 1
                | some c => c.count + 1)
              (fun _ => []) := by
          simp [destState, ibc_destination_callback, hp, ha, appliedState,
            receive_ack]
        rw [h, update_counter_eq]
        exact mapSave_ownerInv _ _ _ rfl hinv
      · have h : destState s env md = s := by
          simp [destState, ibc_destination_callback, hp, ha, appliedState]
        rw [h]
        exact hinv
    · have h : destState s env md = s := by
        simp [destState, ibc_destination_callback, hp, appliedState]
      rw [h]
      exact hinv

theorem owner_invariant_witness :
    ownerInv (instantiate ⟨[("a", ⟨2, [], "a"⟩)], none⟩ "2.0.0" "b"
        ⟨4⟩).1.counters ∧
    ownerInv (sourceState ⟨[("a", ⟨2, [], "a"⟩)], none⟩ ⟨0, "c"⟩
        (.Timeout ⟨⟨[], ⟨"transfer", "channel-0"⟩,
          ⟨"transfer", "channel-1"⟩, 1⟩, "r"⟩)).counters ∧
    ownerInv (destState ⟨[("a", ⟨2, [], "a"⟩)], none⟩ ⟨0, "c"⟩
        ⟨⟨[], ⟨"transfer", "channel-0"⟩, ⟨"transfer", "channel-1"⟩, 1⟩,
          stdAckSuccessBinary⟩).counters :=
  owner_invariant ⟨[("a", ⟨2, [], "a"⟩)], none⟩ ⟨0, "c"⟩ "2.0.0" "b" 4
    (.Timeout ⟨⟨[], ⟨"transfer", "channel-0"⟩,
      ⟨"transfer", "channel-1"⟩, 1⟩, "r"⟩)
    ⟨⟨[], ⟨"transfer", "channel-0"⟩, ⟨"transfer", "channel-1"⟩, 1⟩,
      stdAckSuccessBinary⟩
    (by intro p hp; simp at hp; simp [hp])

end CallbacksCounter
